import Mathlib

/-
  Shallow embedding of `bevy_joycons` (src/lib.rs): device discovery,
  per-device initialization, the per-device polling loop, and the
  per-tick report translator.

  Modelling conventions:
  - `f64`/`f32` stick values are modelled as `Rat`; the narrowing
    `as f32` cast in `send_axis_event` is modelled as the identity.
  - `anyhow` error values carry only messages, which are irrelevant
    here, so fallible calls return `Except Unit`.
  - the external collaborators (hidapi bus, joycon protocol driver)
    are modelled as per-device oracles recording whether each call
    succeeds and with which data, per the interface in the spec.
  - `bevy` HashMap and `thunderdome::Arena` are modelled as
    association lists; the program never removes entries, and only
    uses lookup, insertion and in-order iteration.
  - logging (`error!`, `info!`) has no observable effect and is not
    modelled.
-/

namespace BevyJoycons

/-- Association-list lookup, the model of HashMap / Arena `get`. -/
def alookup {κ β : Type} [DecidableEq κ] (k : κ) : List (κ × β) → Option β
  | [] => none
  | (k2, v) :: rest => if k2 = k then some v else alookup k rest

/-- One 2-D stick vector from a decoded report (device-native range). -/
structure Stick where
  x : Rat
  y : Rat
deriving DecidableEq

/-- The fields of `joycon::Report` that this crate reads. -/
structure Report where
  left_stick : Stick
  right_stick : Stick
deriving DecidableEq

/-- `joycon_sys::input::WhichController` (external crate, re-exported). -/
inductive WhichController
  | LeftJoyCon
  | RightJoyCon
  | ProController
deriving DecidableEq

/-- `joycon_sys::input::UseSPIColors` (external crate, re-exported). -/
inductive UseSPIColors
  | No
  | WithoutGrip
  | IncludingGrip
deriving DecidableEq

/-- `joycon_sys::spi::ControllerColor`: external color data, kept abstract. -/
structure ControllerColor where
  raw : Nat
deriving DecidableEq

/-- Raw device-info block returned by the driver, before the two
`try_into` conversions in `JoyconInfo::new`. -/
structure RawDevInfo where
  which_controller : Nat
  use_spi_colors : Nat
deriving DecidableEq

/-- The fallible `try_into` parse of the controller variant; the exact
raw encoding lives in the external crate and is immaterial here. -/
def WhichController.tryFrom : Nat → Option WhichController
  | 1 => some .LeftJoyCon
  | 2 => some .RightJoyCon
  | 3 => some .ProController
  | _ => none

/-- The fallible `try_into` parse of the color-source flag; the exact
raw encoding lives in the external crate and is immaterial here. -/
def UseSPIColors.tryFrom : Nat → Option UseSPIColors
  | 0 => some .No
  | 1 => some .WithoutGrip
  | 2 => some .IncludingGrip
  | _ => none

/-- `hidapi::DeviceInfo`: the descriptor fields this crate reads.
`serial_number` and `product_string` can be absent on the bus. -/
structure DeviceInfo where
  vendor_id : Nat
  product_id : Nat
  serial_number : Option String
  product_string : Option String
deriving DecidableEq

/-- `joycon_sys::NINTENDO_VENDOR_ID` (external constant). -/
def NINTENDO_VENDOR_ID : Nat := 0x057e

/-- `joycon_sys::HID_IDS` (external constant list of product ids). -/
def HID_IDS : List Nat := [0x2006, 0x2007, 0x2009, 0x200e]

/-- `is_joycon_device`: vendor id matches and product id is a known one. -/
def is_joycon_device (device_info : DeviceInfo) : Bool :=
  device_info.vendor_id == NINTENDO_VENDOR_ID
    && HID_IDS.contains device_info.product_id

/-- Behaviour oracle for one opened device: the outcome of each call
the initialization sequence and the polling loop make into the bus /
protocol driver, in the interface the spec gives for the driver. -/
structure DriverModel where
  open_ok : Bool
  construct_ok : Bool
  load_calibration_ok : Bool
  dev_info : Option RawDevInfo
  spi_color : Option ControllerColor
  first_tick : Option Report
deriving DecidableEq

/-- `bevy_input::gamepad::Gamepad`: a plain integer identifier. -/
structure Gamepad where
  id : Nat
deriving DecidableEq

/-- `JoyconInfo`: immutable per-device facts captured at initialization. -/
structure JoyconInfo where
  product_string : String
  serial_number : String
  which : WhichController
  color : ControllerColor
  use_spi_colors : UseSPIColors
deriving DecidableEq

/-- The steps of `Tracker::new` that call into the bus or the driver,
used to record which calls an initialization attempt performs. -/
inductive InitStep
  | openDevice
  | constructDriver
  | loadCalibration
  | getDevInfo
  | readSpiColor
  | firstTick
deriving DecidableEq

/-- `JoyconInfo::new`: unwraps the descriptor strings (the scanner has
already checked both are present; the panic on an absent one is
modelled as an empty-string default), queries the device-info block,
parses the variant and the color-source flag, reads the color.
Also returns the driver-facing steps it attempted, in order. -/
def JoyconInfo.new (device_info : DeviceInfo) (drv : DriverModel) :
    Except Unit JoyconInfo × List InitStep :=
  let product_string := device_info.product_string.getD ""
  let serial_number := device_info.serial_number.getD ""
  match drv.dev_info with
  | none => (.error (), [.getDevInfo])
  | some joycon_dev_info =>
    match WhichController.tryFrom joycon_dev_info.which_controller with
    | none => (.error (), [.getDevInfo])
    | some which =>
      match UseSPIColors.tryFrom joycon_dev_info.use_spi_colors with
      | none => (.error (), [.getDevInfo])
      | some use_spi_colors =>
        match drv.spi_color with
        | none => (.error (), [.getDevInfo, .readSpiColor])
        | some color =>
          (.ok { product_string, serial_number, which, color, use_spi_colors },
           [.getDevInfo, .readSpiColor])

/-- `Tracker`: the live record for one connected device. The
`last_report` field models the Pinboard mailbox shared with the
polling thread: `none` means Empty (thread failed or cleared). -/
structure Tracker where
  info : JoyconInfo
  last_report : Option Report
  gamepad : Gamepad
deriving DecidableEq

/-- `Tracker::new`: open the hid device, construct the `JoyCon` driver
wrapper, load calibration, build `JoyconInfo` (device info + color),
poll once, and wrap the first report in a fresh mailbox. Each step
short-circuits to an error. Also returns the bus/driver steps it
attempted, in order. -/
def Tracker.new (drv : DriverModel) (device_info : DeviceInfo)
    (gamepad : Gamepad) : Except Unit Tracker × List InitStep :=
  if !drv.open_ok then (.error (), [.openDevice])
  else if !drv.construct_ok then (.error (), [.openDevice, .constructDriver])
  else if !drv.load_calibration_ok then
    (.error (), [.openDevice, .constructDriver, .loadCalibration])
  else
    match JoyconInfo.new device_info drv with
    | (.error _, infosteps) =>
      (.error (), [.openDevice, .constructDriver, .loadCalibration] ++ infosteps)
    | (.ok info, infosteps) =>
      match drv.first_tick with
      | none =>
        (.error (),
         [.openDevice, .constructDriver, .loadCalibration] ++ infosteps
           ++ [.firstTick])
      | some report =>
        (.ok { info, last_report := some report, gamepad },
         [.openDevice, .constructDriver, .loadCalibration] ++ infosteps
           ++ [.firstTick])

/-- `bevy_input::gamepad::GamepadAxisType` (the axes this crate emits). -/
inductive GamepadAxisType
  | LeftStickX
  | LeftStickY
  | RightStickX
  | RightStickY
deriving DecidableEq

/-- `bevy_input::gamepad::GamepadInfo`. -/
structure GamepadInfo where
  name : String
deriving DecidableEq

/-- `bevy_input::gamepad::GamepadEventType` (the variants this crate emits). -/
inductive GamepadEventType
  | Connected (info : GamepadInfo)
  | AxisChanged (axis : GamepadAxisType) (value : Rat)
deriving DecidableEq

/-- `bevy_input::gamepad::GamepadEventRaw`. -/
structure GamepadEventRaw where
  gamepad : Gamepad
  event_type : GamepadEventType
deriving DecidableEq

/-- `send_axis_event`: two `AxisChanged` events for one stick pair, in
x-then-y order (the `EventWriter` is modelled as the returned list). -/
def send_axis_event (gamepad : Gamepad) (x_axis : GamepadAxisType) (x : Rat)
    (y_axis : GamepadAxisType) (y : Rat) : List GamepadEventRaw :=
  [⟨gamepad, .AxisChanged x_axis x⟩, ⟨gamepad, .AxisChanged y_axis y⟩]

/-- The body of the per-tracker loop of `update_joycon_data`: read the
mailbox; if Empty emit nothing, otherwise branch on the variant. -/
def tracker_pass_events (wrapper : Tracker) : List GamepadEventRaw :=
  match wrapper.last_report with
  | none => []
  | some report =>
    match wrapper.info.which with
    | .LeftJoyCon =>
      send_axis_event wrapper.gamepad .LeftStickX (-report.left_stick.y)
        .LeftStickY report.left_stick.x
    | .RightJoyCon =>
      send_axis_event wrapper.gamepad .LeftStickX report.right_stick.y
        .LeftStickY (-report.right_stick.x)
    | .ProController =>
      send_axis_event wrapper.gamepad .LeftStickX report.left_stick.x
        .LeftStickY report.left_stick.y
        ++ send_axis_event wrapper.gamepad .RightStickX report.right_stick.x
          .RightStickY report.right_stick.y

/-- `STARTING_GAMEPAD_ID`: high seed to avoid colliding with gilrs ids. -/
def STARTING_GAMEPAD_ID : Nat := 0x80000000

/-- `Joycons` resource: tracker arena, serial-number map (`Result` is
`Ok index` for a live tracker, `Err ()` for a remembered permanent
failure), gamepad map, and the id counter. The arena is modelled as an
association list with `next_index` the next fresh slot (no removal
exists in the program), its `usize` counter as `Nat`. -/
structure Joycons where
  trackers : List (Nat × Tracker)
  next_index : Nat
  joycons_by_serial_number : List (String × Except Unit Nat)
  joycons_by_gamepad : List (Gamepad × Nat)
  next_gamepad_id : Nat

/-- `Joycons::new`: everything empty, counter seeded at the offset. -/
def Joycons.new : Joycons :=
  { trackers := []
    next_index := 0
    joycons_by_serial_number := []
    joycons_by_gamepad := []
    next_gamepad_id := STARTING_GAMEPAD_ID }

/-- `update_joycon_data`: one Translator pass over the tracker arena in
slot order, appending the events of each tracker to the writer. -/
def update_joycon_data (joycons : Joycons) : List GamepadEventRaw :=
  joycons.trackers.foldl (fun acc p => acc ++ tracker_pass_events p.2) []

/-- The side effects of one scan pass beyond the event writer, tagged
with the serial number of the descriptor that caused them:
`openAttempt` marks a call to `Tracker::new` (device open and full
initialization attempt), `connectEvent` the `Connected` event sent for
it, `spawnThread` the polling thread spawned for it. -/
inductive ScanItem
  | openAttempt (serial : String)
  | connectEvent (serial : String) (gamepad : Gamepad) (name : String)
  | spawnThread (serial : String)
deriving DecidableEq

/-- The serial number a scan side effect concerns. -/
def ScanItem.serial : ScanItem → String
  | .openAttempt s => s
  | .connectEvent s _ _ => s
  | .spawnThread s => s

/-- The body of the device loop of `detect_connection_changes_inner`
for one bus descriptor: filter by vendor/product, skip a missing
serial number, skip a serial number that already has any registry
entry, skip a missing product string; otherwise allocate a gamepad id
(`fetch_add`), attempt `Tracker::new`, and on success insert the
tracker, the gamepad-map entry, send the `Connected` event and spawn
the polling thread, on failure remember the permanent failure; either
way record the outcome under the serial number. `drv_of` is the oracle
giving the driver behaviour of each descriptor during this pass. -/
def process_device (drv_of : DeviceInfo → DriverModel) (joycons : Joycons)
    (device_info : DeviceInfo) :
    Joycons × List GamepadEventRaw × List ScanItem :=
  if !is_joycon_device device_info then (joycons, [], [])
  else
    match device_info.serial_number with
    | none => (joycons, [], [])
    | some serial_num =>
      if (alookup serial_num joycons.joycons_by_serial_number).isSome then
        (joycons, [], [])
      else
        match device_info.product_string with
        | none => (joycons, [], [])
        | some product_string =>
          match Tracker.new (drv_of device_info) device_info
              ⟨joycons.next_gamepad_id⟩ with
          | (Except.ok tracker, _) =>
            ({ trackers := joycons.trackers ++ [(joycons.next_index, tracker)]
               next_index := joycons.next_index + 1
               joycons_by_serial_number :=
                 (serial_num, Except.ok joycons.next_index)
                   :: joycons.joycons_by_serial_number
               joycons_by_gamepad :=
                 (⟨joycons.next_gamepad_id⟩, joycons.next_index)
                   :: joycons.joycons_by_gamepad
               next_gamepad_id := joycons.next_gamepad_id + 1 },
             [⟨⟨joycons.next_gamepad_id⟩,
               GamepadEventType.Connected ⟨product_string⟩⟩],
             [ScanItem.openAttempt serial_num,
              ScanItem.connectEvent serial_num ⟨joycons.next_gamepad_id⟩
                product_string,
              ScanItem.spawnThread serial_num])
          | (Except.error _, _) =>
            ({ joycons with
               joycons_by_serial_number :=
                 (serial_num, Except.error ())
                   :: joycons.joycons_by_serial_number
               next_gamepad_id := joycons.next_gamepad_id + 1 },
             [], [ScanItem.openAttempt serial_num])

/-- One iteration of the device loop, threading the state and
appending the new events and side-effect items to the accumulators. -/
def scan_step (drv_of : DeviceInfo → DriverModel)
    (acc : Joycons × List GamepadEventRaw × List ScanItem)
    (device_info : DeviceInfo) :
    Joycons × List GamepadEventRaw × List ScanItem :=
  let next := process_device drv_of acc.1 device_info
  (next.1, acc.2.1 ++ next.2.1, acc.2.2 ++ next.2.2)

/-- One full pass of `detect_connection_changes_inner` over the
refreshed bus list (a failed refresh performs no iteration at all and
is covered by the empty list). -/
def scan_pass (drv_of : DeviceInfo → DriverModel) (devices : List DeviceInfo)
    (joycons : Joycons) : Joycons × List GamepadEventRaw × List ScanItem :=
  devices.foldl (scan_step drv_of) (joycons, [], [])

/-- One scheduled invocation of the scanner: the bus list it observed
and the driver behaviour of each descriptor during that pass. -/
structure ScanInput where
  drv_of : DeviceInfo → DriverModel
  devices : List DeviceInfo

/-- One whole scan pass, threading the state and accumulating the
side-effect items. -/
def run_step (acc : Joycons × List ScanItem) (inp : ScanInput) :
    Joycons × List ScanItem :=
  let next := scan_pass inp.drv_of inp.devices acc.1
  (next.1, acc.2 ++ next.2.2)

/-- A sequence of scan passes from a starting registry state,
accumulating every side-effect item. The Translator pass mutates no
registry state (`update_joycon_data` is a pure function of it), so the
states this reaches are exactly the reachable registry states. -/
def run_scans (inputs : List ScanInput) (joycons : Joycons) :
    Joycons × List ScanItem :=
  inputs.foldl run_step (joycons, [])

/-- `joycon_polling_thread`: the loop body consumes the successive
results of the driver `tick` calls (`none` is a failed read); each
success overwrites the mailbox, the first failure clears it and breaks
out of the loop, after which nothing ever writes to it again. Returns
the mailbox contents once the listed results are consumed. -/
def joycon_polling_thread :
    List (Option Report) → Option Report → Option Report
  | [], last_report => last_report
  | some report :: rest, _ => joycon_polling_thread rest (some report)
  | none :: _, _ => none

end BevyJoycons

namespace BevyJoycons

/-- C2: for a tracker whose variant is LeftJoyCon and whose mailbox
holds a report with stick (x, y), one Translator pass emits exactly the
two events StickX = -y then StickY = x for that tracker, exactly. -/
theorem left_joycon_rotation (w : Tracker) (r : Report) (i : Nat) (j : Joycons)
    (hw : w.info.which = WhichController.LeftJoyCon)
    (hr : w.last_report = some r)
    (hj : j.trackers = [(i, w)]) :
    tracker_pass_events w =
      [⟨w.gamepad, .AxisChanged .LeftStickX (-r.left_stick.y)⟩,
       ⟨w.gamepad, .AxisChanged .LeftStickY r.left_stick.x⟩] ∧
    update_joycon_data j =
      [⟨w.gamepad, .AxisChanged .LeftStickX (-r.left_stick.y)⟩,
       ⟨w.gamepad, .AxisChanged .LeftStickY r.left_stick.x⟩] := by
  have h1 : tracker_pass_events w =
      [⟨w.gamepad, .AxisChanged .LeftStickX (-r.left_stick.y)⟩,
       ⟨w.gamepad, .AxisChanged .LeftStickY r.left_stick.x⟩] := by
    simp [tracker_pass_events, hr, hw, send_axis_event]
  exact ⟨h1, by simp [update_joycon_data, hj, h1]⟩

/-- Witness for C2 at a concrete left-unit tracker. -/
theorem left_joycon_rotation_witness :
    tracker_pass_events
      { info := { product_string := "L", serial_number := "S1",
                  which := .LeftJoyCon, color := ⟨0⟩, use_spi_colors := .No }
        last_report := some { left_stick := ⟨3, 5⟩, right_stick := ⟨0, 0⟩ }
        gamepad := ⟨7⟩ } =
      [⟨⟨7⟩, .AxisChanged .LeftStickX (-5)⟩,
       ⟨⟨7⟩, .AxisChanged .LeftStickY 3⟩] := by
  have h := left_joycon_rotation
    { info := { product_string := "L", serial_number := "S1",
                which := .LeftJoyCon, color := ⟨0⟩, use_spi_colors := .No }
      last_report := some { left_stick := ⟨3, 5⟩, right_stick := ⟨0, 0⟩ }
      gamepad := ⟨7⟩ }
    { left_stick := ⟨3, 5⟩, right_stick := ⟨0, 0⟩ } 0
    { Joycons.new with
        trackers := [(0,
          { info := { product_string := "L", serial_number := "S1",
                      which := .LeftJoyCon, color := ⟨0⟩, use_spi_colors := .No }
            last_report := some { left_stick := ⟨3, 5⟩, right_stick := ⟨0, 0⟩ }
            gamepad := ⟨7⟩ })] }
    rfl rfl rfl
  exact h.1

/-- C3: for a tracker whose variant is RightJoyCon and whose mailbox
holds a report with (right) stick (x, y), one Translator pass emits
exactly the two events StickX = y then StickY = -x for that tracker. -/
theorem right_joycon_rotation (w : Tracker) (r : Report) (i : Nat) (j : Joycons)
    (hw : w.info.which = WhichController.RightJoyCon)
    (hr : w.last_report = some r)
    (hj : j.trackers = [(i, w)]) :
    tracker_pass_events w =
      [⟨w.gamepad, .AxisChanged .LeftStickX r.right_stick.y⟩,
       ⟨w.gamepad, .AxisChanged .LeftStickY (-r.right_stick.x)⟩] ∧
    update_joycon_data j =
      [⟨w.gamepad, .AxisChanged .LeftStickX r.right_stick.y⟩,
       ⟨w.gamepad, .AxisChanged .LeftStickY (-r.right_stick.x)⟩] := by
  have h1 : tracker_pass_events w =
      [⟨w.gamepad, .AxisChanged .LeftStickX r.right_stick.y⟩,
       ⟨w.gamepad, .AxisChanged .LeftStickY (-r.right_stick.x)⟩] := by
    simp [tracker_pass_events, hr, hw, send_axis_event]
  exact ⟨h1, by simp [update_joycon_data, hj, h1]⟩

/-- Witness for C3 at a concrete right-unit tracker. -/
theorem right_joycon_rotation_witness :
    tracker_pass_events
      { info := { product_string := "R", serial_number := "S2",
                  which := .RightJoyCon, color := ⟨0⟩, use_spi_colors := .No }
        last_report := some { left_stick := ⟨0, 0⟩, right_stick := ⟨2, 9⟩ }
        gamepad := ⟨8⟩ } =
      [⟨⟨8⟩, .AxisChanged .LeftStickX 9⟩,
       ⟨⟨8⟩, .AxisChanged .LeftStickY (-2)⟩] := by
  have h := right_joycon_rotation
    { info := { product_string := "R", serial_number := "S2",
                which := .RightJoyCon, color := ⟨0⟩, use_spi_colors := .No }
      last_report := some { left_stick := ⟨0, 0⟩, right_stick := ⟨2, 9⟩ }
      gamepad := ⟨8⟩ }
    { left_stick := ⟨0, 0⟩, right_stick := ⟨2, 9⟩ } 0
    { Joycons.new with
        trackers := [(0,
          { info := { product_string := "R", serial_number := "S2",
                      which := .RightJoyCon, color := ⟨0⟩, use_spi_colors := .No }
            last_report := some { left_stick := ⟨0, 0⟩, right_stick := ⟨2, 9⟩ }
            gamepad := ⟨8⟩ })] }
    rfl rfl rfl
  exact h.1

/-- C4: for a tracker whose variant is ProController and whose mailbox
holds a report with left stick (lx, ly) and right stick (rx, ry), one
Translator pass emits exactly four unrotated events for that tracker:
StickX = lx, StickY = ly, RightStickX = rx, RightStickY = ry. -/
theorem pro_controller_axes (w : Tracker) (r : Report) (i : Nat) (j : Joycons)
    (hw : w.info.which = WhichController.ProController)
    (hr : w.last_report = some r)
    (hj : j.trackers = [(i, w)]) :
    tracker_pass_events w =
      [⟨w.gamepad, .AxisChanged .LeftStickX r.left_stick.x⟩,
       ⟨w.gamepad, .AxisChanged .LeftStickY r.left_stick.y⟩,
       ⟨w.gamepad, .AxisChanged .RightStickX r.right_stick.x⟩,
       ⟨w.gamepad, .AxisChanged .RightStickY r.right_stick.y⟩] ∧
    update_joycon_data j =
      [⟨w.gamepad, .AxisChanged .LeftStickX r.left_stick.x⟩,
       ⟨w.gamepad, .AxisChanged .LeftStickY r.left_stick.y⟩,
       ⟨w.gamepad, .AxisChanged .RightStickX r.right_stick.x⟩,
       ⟨w.gamepad, .AxisChanged .RightStickY r.right_stick.y⟩] := by
  have h1 : tracker_pass_events w =
      [⟨w.gamepad, .AxisChanged .LeftStickX r.left_stick.x⟩,
       ⟨w.gamepad, .AxisChanged .LeftStickY r.left_stick.y⟩,
       ⟨w.gamepad, .AxisChanged .RightStickX r.right_stick.x⟩,
       ⟨w.gamepad, .AxisChanged .RightStickY r.right_stick.y⟩] := by
    simp [tracker_pass_events, hr, hw, send_axis_event]
  exact ⟨h1, by simp [update_joycon_data, hj, h1]⟩

/-- Witness for C4 at a concrete combo-unit tracker. -/
theorem pro_controller_axes_witness :
    tracker_pass_events
      { info := { product_string := "P", serial_number := "S3",
                  which := .ProController, color := ⟨0⟩, use_spi_colors := .No }
        last_report := some { left_stick := ⟨1, 2⟩, right_stick := ⟨3, 4⟩ }
        gamepad := ⟨9⟩ } =
      [⟨⟨9⟩, .AxisChanged .LeftStickX 1⟩,
       ⟨⟨9⟩, .AxisChanged .LeftStickY 2⟩,
       ⟨⟨9⟩, .AxisChanged .RightStickX 3⟩,
       ⟨⟨9⟩, .AxisChanged .RightStickY 4⟩] := by
  have h := pro_controller_axes
    { info := { product_string := "P", serial_number := "S3",
                which := .ProController, color := ⟨0⟩, use_spi_colors := .No }
      last_report := some { left_stick := ⟨1, 2⟩, right_stick := ⟨3, 4⟩ }
      gamepad := ⟨9⟩ }
    { left_stick := ⟨1, 2⟩, right_stick := ⟨3, 4⟩ } 0
    { Joycons.new with
        trackers := [(0,
          { info := { product_string := "P", serial_number := "S3",
                      which := .ProController, color := ⟨0⟩, use_spi_colors := .No }
            last_report := some { left_stick := ⟨1, 2⟩, right_stick := ⟨3, 4⟩ }
            gamepad := ⟨9⟩ })] }
    rfl rfl rfl
  exact h.1

/-! Helper lemmas about association-list lookup and the allocator. -/

theorem alookup_cons {κ β : Type} [DecidableEq κ] (k k2 : κ) (v : β)
    (l : List (κ × β)) :
    alookup k ((k2, v) :: l) = if k2 = k then some v else alookup k l := rfl

theorem polling_thread_fail_clears (succ : List Report)
    (rest : List (Option Report)) (mb : Option Report) :
    joycon_polling_thread (succ.map some ++ none :: rest) mb = none := by
  induction succ generalizing mb with
  | nil => simp [joycon_polling_thread]
  | cons r rs ih => simpa [joycon_polling_thread] using ih (some r)

/-- C7: when the read loop of a polling thread hits a failed driver
read after any number of successful reads, the mailbox ends up (and,
the thread having terminated, stays) Empty, and a Translator pass
emits zero events for a tracker whose mailbox is in that state. -/
theorem polling_failure_silences_translator (succ : List Report)
    (rest : List (Option Report)) (mb : Option Report) (w : Tracker)
    (hw : w.last_report =
      joycon_polling_thread (succ.map some ++ none :: rest) mb) :
    w.last_report = none ∧ tracker_pass_events w = [] := by
  have h0 : w.last_report = none := by
    rw [hw, polling_thread_fail_clears]
  exact ⟨h0, by simp [tracker_pass_events, h0]⟩

/-- Witness for C7: one successful read, then a failure. -/
theorem polling_failure_silences_translator_witness :
    ({ info := { product_string := "L", serial_number := "S7",
                 which := WhichController.LeftJoyCon, color := ⟨0⟩,
                 use_spi_colors := UseSPIColors.No }
       last_report := joycon_polling_thread
         ([{ left_stick := ⟨1, 1⟩, right_stick := ⟨0, 0⟩ }].map some
           ++ none :: []) none
       gamepad := ⟨3⟩ } : Tracker).last_report = none ∧
    tracker_pass_events
      { info := { product_string := "L", serial_number := "S7",
                  which := WhichController.LeftJoyCon, color := ⟨0⟩,
                  use_spi_colors := UseSPIColors.No }
        last_report := joycon_polling_thread
          ([{ left_stick := ⟨1, 1⟩, right_stick := ⟨0, 0⟩ }].map some
            ++ none :: []) none
        gamepad := ⟨3⟩ } = [] :=
  polling_failure_silences_translator
    [{ left_stick := ⟨1, 1⟩, right_stick := ⟨0, 0⟩ }] [] none _ rfl

/-- C10: a descriptor that matches the vendor/product filter but
carries no serial number is skipped outright: the pass neither
allocates an id, nor opens or initializes, nor writes any registry
entry, nor emits anything; and a pass over a bus list containing the
descriptor behaves exactly as the pass without it, on every pass. -/
theorem missing_serial_descriptor_skipped
    (drv_of : DeviceInfo → DriverModel) (j : Joycons) (d : DeviceInfo)
    (hj : is_joycon_device d = true) (hs : d.serial_number = none) :
    process_device drv_of j d = (j, [], []) ∧
    ∀ ds : List DeviceInfo,
      scan_pass drv_of (ds ++ [d]) j = scan_pass drv_of ds j := by
  have h1 : ∀ jj : Joycons, process_device drv_of jj d = (jj, [], []) := by
    intro jj; simp [process_device, hj, hs]
  refine ⟨h1 j, fun ds => ?_⟩
  rw [scan_pass, scan_pass, List.foldl_append]
  show scan_step drv_of (List.foldl (scan_step drv_of) (j, [], []) ds) d = _
  simp [scan_step, h1]

/-- Witness for C10 at a concrete filtered, serial-less descriptor. -/
theorem missing_serial_descriptor_skipped_witness :
    process_device (fun _ => ⟨true, true, true, some ⟨1, 0⟩, some ⟨0⟩,
        some { left_stick := ⟨0, 0⟩, right_stick := ⟨0, 0⟩ }⟩)
      Joycons.new ⟨NINTENDO_VENDOR_ID, 0x2006, none, some "Joy-Con L"⟩ =
      (Joycons.new, [], []) :=
  (missing_serial_descriptor_skipped _ Joycons.new
    ⟨NINTENDO_VENDOR_ID, 0x2006, none, some "Joy-Con L"⟩ rfl rfl).1

/-! The scan never touches a serial number that already has an entry. -/

theorem process_device_keeps_serial (drv_of : DeviceInfo → DriverModel)
    (j : Joycons) (d : DeviceInfo) (s : String)
    (h : (alookup s j.joycons_by_serial_number).isSome = true) :
    (alookup s
      (process_device drv_of j d).1.joycons_by_serial_number).isSome = true ∧
    ∀ it ∈ (process_device drv_of j d).2.2, it.serial ≠ s := by
  cases hj : is_joycon_device d with
  | false => refine ⟨?_, ?_⟩ <;> simp [process_device, hj, h]
  | true =>
    cases hs : d.serial_number with
    | none => refine ⟨?_, ?_⟩ <;> simp [process_device, hj, hs, h]
    | some s2 =>
      cases hreg : (alookup s2 j.joycons_by_serial_number).isSome with
      | true => refine ⟨?_, ?_⟩ <;> simp [process_device, hj, hs, hreg, h]
      | false =>
        have hne : s2 ≠ s := by
          intro he
          rw [he] at hreg
          rw [hreg] at h
          exact Bool.false_ne_true h
        cases hp : d.product_string with
        | none => refine ⟨?_, ?_⟩ <;> simp [process_device, hj, hs, hreg, hp, h]
        | some p =>
          rcases htn : Tracker.new (drv_of d) d ⟨j.next_gamepad_id⟩
            with ⟨res, steps⟩
          cases res with
          | ok tracker =>
            refine ⟨?_, ?_⟩ <;>
              simp [process_device, hj, hs, hreg, hp, htn, alookup, hne,
                ScanItem.serial, h]
          | error e =>
            refine ⟨?_, ?_⟩ <;>
              simp [process_device, hj, hs, hreg, hp, htn, alookup, hne,
                ScanItem.serial, h]

theorem scan_fold_keeps_serial (drv_of : DeviceInfo → DriverModel)
    (ds : List DeviceInfo) (s : String) :
    ∀ acc : Joycons × List GamepadEventRaw × List ScanItem,
      (alookup s acc.1.joycons_by_serial_number).isSome = true →
      (∀ it ∈ acc.2.2, it.serial ≠ s) →
      (alookup s (List.foldl (scan_step drv_of) acc
        ds).1.joycons_by_serial_number).isSome = true ∧
      ∀ it ∈ (List.foldl (scan_step drv_of) acc ds).2.2, it.serial ≠ s := by
  induction ds with
  | nil => intro acc h1 h2; exact ⟨h1, h2⟩
  | cons d rest ih =>
    intro acc h1 h2
    have hstep := process_device_keeps_serial drv_of acc.1 d s h1
    rw [List.foldl_cons]
    refine ih (scan_step drv_of acc d) hstep.1 ?_
    intro it hit
    simp only [scan_step] at hit
    rcases List.mem_append.mp hit with hit | hit
    · exact h2 it hit
    · exact hstep.2 it hit

theorem run_fold_keeps_serial (inputs : List ScanInput) (s : String) :
    ∀ acc : Joycons × List ScanItem,
      (alookup s acc.1.joycons_by_serial_number).isSome = true →
      (∀ it ∈ acc.2, it.serial ≠ s) →
      (alookup s (List.foldl run_step acc
        inputs).1.joycons_by_serial_number).isSome = true ∧
      ∀ it ∈ (List.foldl run_step acc inputs).2, it.serial ≠ s := by
  induction inputs with
  | nil => intro acc h1 h2; exact ⟨h1, h2⟩
  | cons inp rest ih =>
    intro acc h1 h2
    have hpass := scan_fold_keeps_serial inp.drv_of inp.devices s
      (acc.1, [], []) h1 (by simp)
    rw [List.foldl_cons]
    refine ih (run_step acc inp) hpass.1 ?_
    intro it hit
    simp only [run_step] at hit
    rcases List.mem_append.mp hit with hit | hit
    · exact h2 it hit
    · exact hpass.2 it hit

/-- C1: across any sequence of scan passes, a serial number that
already has any registry entry (live tracker or permanent failure) is
never the subject of an open/initialization attempt, a spawned
polling thread, or a Connected event, while (since nothing ever
removes entries) the entry persists. -/
theorem existing_serial_entry_never_reinitialized (inputs : List ScanInput)
    (j : Joycons) (s : String)
    (h : (alookup s j.joycons_by_serial_number).isSome = true) :
    ∀ it ∈ (run_scans inputs j).2, it.serial ≠ s :=
  (run_fold_keeps_serial inputs s (j, []) h (by simp)).2

/-- A driver oracle for which every call succeeds. -/
def drvAllOk : DriverModel :=
  ⟨true, true, true, some ⟨1, 0⟩, some ⟨0⟩,
   some { left_stick := ⟨0, 0⟩, right_stick := ⟨0, 0⟩ }⟩

/-- A registry state that has already memoized a failure for "AAA". -/
def stateWithFailedAAA : Joycons :=
  { Joycons.new with
    joycons_by_serial_number := [("AAA", Except.error ())] }

/-- A single scan pass whose bus lists the "AAA" device again. -/
def inputsListingAAA : List ScanInput :=
  [⟨fun _ => drvAllOk,
    [⟨NINTENDO_VENDOR_ID, 0x2006, some "AAA", some "Joy-Con L"⟩]⟩]

/-- Witness for C1: with "AAA" memoized as failed, a pass listing it
again produces no item about it. -/
theorem existing_serial_entry_never_reinitialized_witness :
    (alookup "AAA"
      stateWithFailedAAA.joycons_by_serial_number).isSome = true ∧
    ∀ it ∈ (run_scans inputsListingAAA stateWithFailedAAA).2,
      it.serial ≠ "AAA" :=
  ⟨by decide,
   existing_serial_entry_never_reinitialized inputsListingAAA
     stateWithFailedAAA "AAA" (by decide)⟩

/-- Modelled from the spec: the bus/driver calls an initialization
attempt performs, in the order the spec states them — open; construct
the driver wrapper; query device identity/capabilities; load
calibration; one synchronous read — each step short-circuiting on
failure, under the same driver behaviour oracle. Written only to be
compared against the trace of `Tracker.new`. -/
def tracker_new_spec_order_trace (drv : DriverModel) : List InitStep :=
  if !drv.open_ok then [.openDevice]
  else if !drv.construct_ok then [.openDevice, .constructDriver]
  else
    match drv.dev_info with
    | none => [.openDevice, .constructDriver, .getDevInfo]
    | some raw =>
      match WhichController.tryFrom raw.which_controller with
      | none => [.openDevice, .constructDriver, .getDevInfo]
      | some _ =>
        match UseSPIColors.tryFrom raw.use_spi_colors with
        | none => [.openDevice, .constructDriver, .getDevInfo]
        | some _ =>
          match drv.spi_color with
          | none =>
            [.openDevice, .constructDriver, .getDevInfo, .readSpiColor]
          | some _ =>
            if !drv.load_calibration_ok then
              [.openDevice, .constructDriver, .getDevInfo, .readSpiColor,
               .loadCalibration]
            else
              [.openDevice, .constructDriver, .getDevInfo, .readSpiColor,
               .loadCalibration, .firstTick]

/-- The bus/driver calls `Tracker::new` actually performs, in order,
as a function of the driver behaviour: open, construct, calibration
load, identity/capability query, color read, first read, each
short-circuiting on failure. -/
def init_step_trace (drv : DriverModel) : List InitStep :=
  if !drv.open_ok then [.openDevice]
  else if !drv.construct_ok then [.openDevice, .constructDriver]
  else if !drv.load_calibration_ok then
    [.openDevice, .constructDriver, .loadCalibration]
  else
    match drv.dev_info with
    | none => [.openDevice, .constructDriver, .loadCalibration, .getDevInfo]
    | some raw =>
      match WhichController.tryFrom raw.which_controller with
      | none => [.openDevice, .constructDriver, .loadCalibration, .getDevInfo]
      | some _ =>
        match UseSPIColors.tryFrom raw.use_spi_colors with
        | none =>
          [.openDevice, .constructDriver, .loadCalibration, .getDevInfo]
        | some _ =>
          match drv.spi_color with
          | none =>
            [.openDevice, .constructDriver, .loadCalibration, .getDevInfo,
             .readSpiColor]
          | some _ =>
            [.openDevice, .constructDriver, .loadCalibration, .getDevInfo,
             .readSpiColor, .firstTick]

/-- Whether every initialization step succeeds for a given driver. -/
def init_succeeds (drv : DriverModel) : Bool :=
  drv.open_ok && drv.construct_ok && drv.load_calibration_ok &&
    (match drv.dev_info with
     | none => false
     | some raw =>
       (WhichController.tryFrom raw.which_controller).isSome &&
         (UseSPIColors.tryFrom raw.use_spi_colors).isSome) &&
    drv.spi_color.isSome && drv.first_tick.isSome

/-- A driver whose calibration load fails while every identity query
call would succeed: it separates the two candidate step orders. -/
def drvCalibrationFails : DriverModel :=
  ⟨true, true, false, some ⟨1, 0⟩, some ⟨0⟩,
   some { left_stick := ⟨0, 0⟩, right_stick := ⟨0, 0⟩ }⟩

/-- C5 counterexample: the claimed order (identity query before the
calibration load) disagrees with what `Tracker::new` performs; with a
failing calibration load the code stops at the calibration step
without ever querying identity, while the claimed order would have
queried identity and color first. -/
theorem init_order_spec_refuted :
    (Tracker.new drvCalibrationFails
      ⟨NINTENDO_VENDOR_ID, 0x2006, some "XYZ", some "Joy-Con L"⟩ ⟨0⟩).2 ≠
    tracker_new_spec_order_trace drvCalibrationFails := by
  decide

/-- C5 (amended): initialization performs its bus/driver steps in
exactly this order, each short-circuiting to an error on failure:
open the device on the bus; construct the protocol driver wrapper;
load calibration data into the driver; query device
identity/capabilities (variant, color-source flag) and color from the
driver; perform one synchronous read to obtain a first Report; wrap
it in a fresh Mailbox; construction succeeds exactly when every step
does, and then the mailbox holds the first report. -/
theorem init_step_order (drv : DriverModel) (device_info : DeviceInfo)
    (g : Gamepad) :
    (Tracker.new drv device_info g).2 = init_step_trace drv ∧
    ((∃ t, (Tracker.new drv device_info g).1 = Except.ok t) ↔
      init_succeeds drv = true) ∧
    ∀ t, (Tracker.new drv device_info g).1 = Except.ok t →
      t.last_report = drv.first_tick := by
  rcases drv with ⟨o, c, l, di, sc, ft⟩
  cases o with
  | false => simp [Tracker.new, init_step_trace, init_succeeds]
  | true =>
    cases c with
    | false => simp [Tracker.new, init_step_trace, init_succeeds]
    | true =>
      cases l with
      | false => simp [Tracker.new, init_step_trace, init_succeeds]
      | true =>
        cases di with
        | none =>
          simp [Tracker.new, JoyconInfo.new, init_step_trace, init_succeeds]
        | some raw =>
          cases hw : WhichController.tryFrom raw.which_controller with
          | none =>
            simp [Tracker.new, JoyconInfo.new, init_step_trace,
              init_succeeds, hw]
          | some which =>
            cases hu : UseSPIColors.tryFrom raw.use_spi_colors with
            | none =>
              simp [Tracker.new, JoyconInfo.new, init_step_trace,
                init_succeeds, hw, hu]
            | some u =>
              cases sc with
              | none =>
                simp [Tracker.new, JoyconInfo.new, init_step_trace,
                  init_succeeds, hw, hu]
              | some color =>
                cases ft with
                | none =>
                  simp [Tracker.new, JoyconInfo.new, init_step_trace,
                    init_succeeds, hw, hu]
                | some report =>
                  refine ⟨?_, ?_, ?_⟩
                  · simp [Tracker.new, JoyconInfo.new, init_step_trace,
                      hw, hu]
                  · simp [Tracker.new, JoyconInfo.new, init_succeeds,
                      hw, hu]
                  · intro t ht
                    simp [Tracker.new, JoyconInfo.new, hw, hu] at ht
                    rw [← ht]

/-- Witness for the amended C5 at a concrete all-successful driver. -/
theorem init_step_order_witness :
    (Tracker.new drvAllOk
      ⟨NINTENDO_VENDOR_ID, 0x2006, some "W5", some "Joy-Con L"⟩ ⟨5⟩).2 =
    init_step_trace drvAllOk :=
  (init_step_order drvAllOk
    ⟨NINTENDO_VENDOR_ID, 0x2006, some "W5", some "Joy-Con L"⟩ ⟨5⟩).1

end BevyJoycons
